import Mathlib

/-!
Verification of the anthropometric classification core of the repository:
shape/tone classifiers, the feature-vector builder, the clothing style
encoder, and cosine top-k matching.

Numeric model: Python floats are embedded as exact rationals (ℚ) for all
decision logic, and as reals (ℝ) where Euclidean norms (square roots)
appear.  Landmark estimation, mask measurement and image decoding are
external black boxes (per the spec); the classifiers receive their
measured widths / channel means as inputs, with absence of a detection
represented by Option.
-/

namespace FitMe

/-! ### Face classifier (app/classifiers/face.py) -/

/-- Raw measurements extracted from a detected face mesh
(Euclidean distances of the anchor landmark pairs, in pixels). -/
structure FaceDet where
  face_width : ℚ
  face_length : ℚ
  forehead_width : ℚ

/-- The metrics dict built by classify_face_shape. -/
structure FaceMetrics where
  face_width : ℚ
  face_length : ℚ
  forehead_width : ℚ
  jaw_width_est : ℚ
  ratio_len_width : ℚ
  ratio_jaw_forehead : ℚ

/-- The output dict of classify_face_shape. -/
structure FaceOut where
  face_shape : String
  metrics : Option FaceMetrics
  debug : String

/-- The tuned face-shape decision chain of face.py (lines 118-152),
operating on the ratios R = face_length/(face_width+1e-6) and
J = jaw_width_est/(forehead_width+1e-6).  First matching branch wins;
the initial value oval survives when no branch fires. -/
def faceShapeFromRatios (R J : ℚ) : String :=
  if R ≥ 1.40 then "oblong"
  else if J < 0.90 ∧ R ≥ 1.20 then "heart"
  else if R ≤ 1.14 then
    (if J ≥ 1.11 then "round" else if J ≥ 1.06 then "oval" else "round")
  else if R ≤ 1.22 then
    (if J ≥ 1.07 then "square" else "oval")
  else
    (if J ≥ 1.10 then "square" else "oval")

/-- classify_face_shape: mediapipe face-mesh detection is the external
black box; none models res.multi_face_landmarks being empty. -/
def classify_face_shape (det : Option FaceDet) : FaceOut :=
  match det with
  | none => { face_shape := "unknown", metrics := none, debug := "no_face" }
  | some d =>
    let jaw_width : ℚ := d.face_width * 0.90
    let R : ℚ := d.face_length / (d.face_width + 1e-6)
    let J : ℚ := jaw_width / (d.forehead_width + 1e-6)
    { face_shape := faceShapeFromRatios R J
      metrics := some
        { face_width := d.face_width
          face_length := d.face_length
          forehead_width := d.forehead_width
          jaw_width_est := jaw_width
          ratio_len_width := R
          ratio_jaw_forehead := J }
      debug := "ok" }

/-! ### Body classifier (app/classifiers/body.py) -/

/-- Silhouette widths measured from the pose landmarks plus the
segmentation mask (lines 85-134 of body.py); the pixel-level measurement
is the external black box. -/
structure BodyWidths where
  shoulder_width : ℚ
  hip_width : ℚ
  waist_width : ℚ

/-- The ratio part of the metrics dict built by classify_body_shape. -/
structure BodyMetrics where
  shoulder_width_seg : ℚ
  hip_width_seg : ℚ
  waist_width_seg : ℚ
  s_h : ℚ
  w_s : ℚ
  w_h : ℚ

/-- The output dict of classify_body_shape. -/
structure BodyOut where
  body_shape : String
  metrics : Option BodyMetrics
  debug : String

/-- The body-shape decision chain of body.py (lines 144-172): returns
(body, debug_flag).  drop_s = 1 - w_s and drop_h = 1 - w_h. -/
def bodyShapeFromRatios (s_h w_s w_h : ℚ) : String × String :=
  let drop_s : ℚ := 1 - w_s
  let drop_h : ℚ := 1 - w_h
  if s_h > 1.9 ∨ s_h < 0.6 then ("unknown", "ratio_outlier")
  else if w_s ≥ 1.10 ∧ w_h ≥ 1.05 then ("inverted_rectangle", "ok")
  else if s_h ≥ 1.25 ∧ drop_h < 0.12 then ("inverted_triangle", "ok")
  else if s_h ≤ 0.85 ∧ drop_h < 0.12 then ("triangle", "ok")
  else if drop_s ≥ 0.18 ∧ drop_h ≥ 0.12 then ("hourglass", "ok")
  else if |drop_s| ≤ 0.12 ∧ |drop_h| ≤ 0.12 then ("rectangle", "ok")
  else ("balanced", "ok")

/-- classify_body_shape: poseDetected models res.pose_landmarks being
non-empty; the Option models segmentation_mask presence (the widths can
only be measured when the mask exists). -/
def classify_body_shape (poseDetected : Bool) (seg : Option BodyWidths) : BodyOut :=
  if ¬ poseDetected then
    { body_shape := "unknown", metrics := none, debug := "no_pose" }
  else
    match seg with
    | none => { body_shape := "unknown", metrics := none, debug := "no_segmentation" }
    | some wd =>
      let eps : ℚ := 1e-6
      let s_h : ℚ := wd.shoulder_width / (wd.hip_width + eps)
      let w_s : ℚ := wd.waist_width / (wd.shoulder_width + eps)
      let w_h : ℚ := wd.waist_width / (wd.hip_width + eps)
      let r := bodyShapeFromRatios s_h w_s w_h
      { body_shape := r.1
        metrics := some
          { shoulder_width_seg := wd.shoulder_width
            hip_width_seg := wd.hip_width
            waist_width_seg := wd.waist_width
            s_h := s_h, w_s := w_s, w_h := w_h }
        debug := r.2 }

/-! ### Skin classifier (app/classifiers/skin.py) -/

/-- The central face ROI with its pixel area and the per-channel means of
the Lab / HSV conversions (the color conversion and averaging over the
cropped pixel block is the external black box). -/
structure SkinROI where
  area : ℕ
  L_mean : ℚ
  a_mean : ℚ
  b_mean : ℚ
  H_mean : ℚ
  S_mean : ℚ
  V_mean : ℚ

/-- The metrics dict built by classify_skin_tone. -/
structure SkinMetrics where
  L_mean : ℚ
  a_mean : ℚ
  b_mean : ℚ
  H_mean : ℚ
  S_mean : ℚ
  V_mean : ℚ

/-- The output dict of classify_skin_tone. -/
structure SkinOut where
  skin_tone : String
  metrics : Option SkinMetrics
  debug : String

/-- Depth rule of skin.py line 55. -/
def skinDepth (L : ℚ) : String :=
  if L ≥ 180 then "light" else if L ≥ 130 then "medium" else "deep"

/-- Undertone rule of skin.py lines 58-74: score = db - 0.6 * da with
da = a - 138, db = b - 136, threshold T = 3. -/
def skinUndertone (a b : ℚ) : String :=
  let da : ℚ := a - 138
  let db : ℚ := b - 136
  let score : ℚ := db - 0.6 * da
  if score > 3 then "warm" else if score < -3 then "cool" else "neutral"

/-- classify_skin_tone: none models an empty face-mesh detection; a zero
ROI area models roi.size == 0 after the central crop. -/
def classify_skin_tone (det : Option SkinROI) : SkinOut :=
  match det with
  | none => { skin_tone := "unknown", metrics := none, debug := "no_face" }
  | some roi =>
    if roi.area = 0 then
      { skin_tone := "unknown", metrics := none, debug := "roi_empty" }
    else
      { skin_tone := skinDepth roi.L_mean ++ "_" ++ skinUndertone roi.a_mean roi.b_mean
        metrics := some
          { L_mean := roi.L_mean, a_mean := roi.a_mean, b_mean := roi.b_mean
            H_mean := roi.H_mean, S_mean := roi.S_mean, V_mean := roi.V_mean }
        debug := "ok" }

/-! ### Style encoder (app/services/outfit_embedding.py) -/

namespace OutfitEmbedding

/-- str.lower(), modelled character-wise. -/
def lowerStr (s : String) : String :=
  ⟨s.data.map Char.toLower⟩

/-- str.strip(): drop whitespace from both ends. -/
def trimStr (s : String) : String :=
  ⟨(((s.data.dropWhile Char.isWhitespace).reverse).dropWhile Char.isWhitespace).reverse⟩

/-- The input normalization (s or "").strip().lower(): null/absent becomes
the empty string; whitespace is trimmed and letters lowercased. -/
def normalizeTok (s : Option String) : String :=
  lowerStr (trimStr (s.getD ""))

/-- The color-family groups and the membership test of
_same_color_family (both arguments re-normalized, as in the source). -/
def sameColorFamily (a b : String) : Bool :=
  let a := (some a : Option String) |> normalizeTok
  let b := (some b : Option String) |> normalizeTok
  let groups : List (List String) :=
    [["white", "ivory", "beige", "cream"],
     ["black", "charcoal"],
     ["gray", "grey"],
     ["navy", "blue"],
     ["brown", "khaki"],
     ["pink", "red"],
     ["green", "olive"]]
  groups.any (fun g => g.contains a && g.contains b)

/-- v0: minimal(+1) vs street(-1). -/
def v0_axis (style : String) : ℚ :=
  if style = "minimal" then 0.9
  else if style = "street" then -0.9
  else if style = "casual" ∨ style = "sporty" then 0.3
  else if style = "retro" ∨ style = "romantic" then -0.3
  else if style = "formal" then 0.2
  else 0

/-- v1: casual(+1) vs formal(-1). -/
def v1_axis (style : String) : ℚ :=
  if style = "casual" ∨ style = "street" ∨ style = "sporty" then 0.8
  else if style = "formal" then -0.8
  else if style = "minimal" ∨ style = "retro" ∨ style = "romantic" then 0.1
  else 0

/-- The soft-tone color set of the v2 rule. -/
def softColors : List String :=
  ["white", "ivory", "beige", "cream", "lightgray", "gray"]

/-- The vivid-tone color set of the v2 rule. -/
def vividColors : List String :=
  ["red", "yellow", "green", "blue", "pink", "orange", "purple"]

/-- v2: soft-tone(+1) vs vivid-tone(-1), with the color-family fallback. -/
def v2_axis (color : String) : ℚ :=
  if softColors.contains color then 0.8
  else if vividColors.contains color then -0.8
  else if softColors.any (fun c => sameColorFamily color c) then 0.4
  else if vividColors.any (fun c => sameColorFamily color c) then -0.4
  else 0

/-- v3: the category axis (cat_map lookup with default 0.0). -/
def v3_axis (category : String) : ℚ :=
  if category = "top" then 0.8
  else if category = "bottom" then 0.4
  else if category = "outer" then -0.2
  else if category = "dress" then 0.6
  else if category = "shoes" then -0.6
  else if category = "bag" then -0.8
  else if category = "accessory" then -0.4
  else 0

/-- v4: the fit axis (fit_map lookup with default 0.0). -/
def v4_axis (fit : String) : ℚ :=
  if fit = "slim" then -0.8
  else if fit = "regular" then 0
  else if fit = "relaxed" then 0.4
  else if fit = "oversized" then 0.8
  else 0

/-- v5: the season axis. -/
def v5_axis (season : String) : ℚ :=
  if season = "spring" ∨ season = "summer" then 0.9
  else if season = "fall" ∨ season = "autumn" ∨ season = "winter" then -0.9
  else if season = "all" then 0
  else 0

/-- style_to_vec of outfit_embedding.py: normalize the five inputs, then
each component of v is assigned independently by its axis rule. -/
def style_to_vec (style season color category fit : Option String) : List ℚ :=
  let st := normalizeTok style
  let se := normalizeTok season
  let co := normalizeTok color
  let ca := normalizeTok category
  let fi := normalizeTok fit
  [v0_axis st, v1_axis st, v2_axis co, v3_axis ca, v4_axis fi, v5_axis se]

end OutfitEmbedding

/-! ### Style encoder, second copy (app/services/clothes_analyzer.py,
lines 55-165; textually identical logic to outfit_embedding.py) -/

namespace ClothesAnalyzer

/-- str.lower() for clothes_analyzer.py. -/
def lowerStr (s : String) : String :=
  ⟨s.data.map Char.toLower⟩

/-- str.strip() for clothes_analyzer.py. -/
def trimStr (s : String) : String :=
  ⟨(((s.data.dropWhile Char.isWhitespace).reverse).dropWhile Char.isWhitespace).reverse⟩

/-- The input normalization of clothes_analyzer.py. -/
def normalizeTok (s : Option String) : String :=
  lowerStr (trimStr (s.getD ""))

/-- _same_color_family of clothes_analyzer.py. -/
def sameColorFamily (a b : String) : Bool :=
  let a := (some a : Option String) |> normalizeTok
  let b := (some b : Option String) |> normalizeTok
  let groups : List (List String) :=
    [["white", "ivory", "beige", "cream"],
     ["black", "charcoal"],
     ["gray", "grey"],
     ["navy", "blue"],
     ["brown", "khaki"],
     ["pink", "red"],
     ["green", "olive"]]
  groups.any (fun g => g.contains a && g.contains b)

/-- v0 of clothes_analyzer.py. -/
def v0_axis (style : String) : ℚ :=
  if style = "minimal" then 0.9
  else if style = "street" then -0.9
  else if style = "casual" ∨ style = "sporty" then 0.3
  else if style = "retro" ∨ style = "romantic" then -0.3
  else if style = "formal" then 0.2
  else 0

/-- v1 of clothes_analyzer.py. -/
def v1_axis (style : String) : ℚ :=
  if style = "casual" ∨ style = "street" ∨ style = "sporty" then 0.8
  else if style = "formal" then -0.8
  else if style = "minimal" ∨ style = "retro" ∨ style = "romantic" then 0.1
  else 0

/-- soft_colors of clothes_analyzer.py. -/
def softColors : List String :=
  ["white", "ivory", "beige", "cream", "lightgray", "gray"]

/-- vivid_colors of clothes_analyzer.py. -/
def vividColors : List String :=
  ["red", "yellow", "green", "blue", "pink", "orange", "purple"]

/-- v2 of clothes_analyzer.py. -/
def v2_axis (color : String) : ℚ :=
  if softColors.contains color then 0.8
  else if vividColors.contains color then -0.8
  else if softColors.any (fun c => sameColorFamily color c) then 0.4
  else if vividColors.any (fun c => sameColorFamily color c) then -0.4
  else 0

/-- v3 of clothes_analyzer.py. -/
def v3_axis (category : String) : ℚ :=
  if category = "top" then 0.8
  else if category = "bottom" then 0.4
  else if category = "outer" then -0.2
  else if category = "dress" then 0.6
  else if category = "shoes" then -0.6
  else if category = "bag" then -0.8
  else if category = "accessory" then -0.4
  else 0

/-- v4 of clothes_analyzer.py. -/
def v4_axis (fit : String) : ℚ :=
  if fit = "slim" then -0.8
  else if fit = "regular" then 0
  else if fit = "relaxed" then 0.4
  else if fit = "oversized" then 0.8
  else 0

/-- v5 of clothes_analyzer.py. -/
def v5_axis (season : String) : ℚ :=
  if season = "spring" ∨ season = "summer" then 0.9
  else if season = "fall" ∨ season = "autumn" ∨ season = "winter" then -0.9
  else if season = "all" then 0
  else 0

/-- style_to_vec of clothes_analyzer.py. -/
def style_to_vec (style season color category fit : Option String) : List ℚ :=
  let st := normalizeTok style
  let se := normalizeTok season
  let co := normalizeTok color
  let ca := normalizeTok category
  let fi := normalizeTok fit
  [v0_axis st, v1_axis st, v2_axis co, v3_axis ca, v4_axis fi, v5_axis se]

end ClothesAnalyzer

/-! ### Feature-vector builder (app/services/feature_builder.py).
The module defines build_feature_vector twice; the second definition
(lines 125-187) shadows the first and is the effective one, embedded
here.  Classifier outputs arrive as dicts; a metrics dict is modelled as
an association list whose values are either numbers or non-numeric
Python values. -/

/-- A Python dict value as seen by _safe_get: either convertible by
float(), or anything else (conversion raises and is caught). -/
inductive PyVal where
  | num (q : ℚ)
  | other

/-- A metrics dict: string keys to Python values. -/
abbrev MetricsDict := List (String × PyVal)

/-- _safe_get: missing key, empty/None dict, or non-numeric value all
yield the default 0.0. -/
def safe_get (m : MetricsDict) (key : String) : ℚ :=
  match m.lookup key with
  | some (PyVal.num q) => q
  | some PyVal.other => 0
  | none => 0

/-- The face dict input of build_feature_vector. -/
structure FaceDict where
  face_shape : Option String
  metrics : Option MetricsDict

/-- The body dict input of build_feature_vector. -/
structure BodyDict where
  body_shape : Option String
  metrics : Option MetricsDict

/-- The skin dict input of build_feature_vector. -/
structure SkinDict where
  skin_tone : Option String
  metrics : Option MetricsDict

/-- BODY_SHAPE_MAP.get(label, BODY_SHAPE_MAP["unknown"]). -/
def BODY_SHAPE_MAP (label : String) : List ℚ :=
  if label = "inverted_triangle" then [1, 0, 0, 0, 0]
  else if label = "triangle" then [0, 1, 0, 0, 0]
  else if label = "hourglass" then [0, 0, 1, 0, 0]
  else if label = "rectangle" then [0, 0, 0, 1, 0]
  else if label = "balanced" then [0, 0, 0, 0, 1]
  else [0, 0, 0, 0, 0]

/-- FACE_SHAPE_MAP.get(label, FACE_SHAPE_MAP["unknown"]). -/
def FACE_SHAPE_MAP (label : String) : List ℚ :=
  if label = "oval" then [1, 0, 0, 0, 0]
  else if label = "round" then [0, 1, 0, 0, 0]
  else if label = "square" then [0, 0, 1, 0, 0]
  else if label = "heart" then [0, 0, 0, 1, 0]
  else if label = "oblong" then [0, 0, 0, 0, 1]
  else [0, 0, 0, 0, 0]

/-- SKIN_DEPTH_MAP.get(depth, SKIN_DEPTH_MAP["unknown"]). -/
def SKIN_DEPTH_MAP (label : String) : List ℚ :=
  if label = "light" then [1, 0, 0]
  else if label = "medium" then [0, 1, 0]
  else if label = "deep" then [0, 0, 1]
  else [0, 0, 0]

/-- SKIN_UNDERTONE_MAP.get(undertone, SKIN_UNDERTONE_MAP["unknown"]). -/
def SKIN_UNDERTONE_MAP (label : String) : List ℚ :=
  if label = "warm" then [1, 0, 0]
  else if label = "cool" then [0, 1, 0]
  else if label = "neutral" then [0, 0, 1]
  else [0, 0, 0]

/-- Lines 162-166 of feature_builder.py: split the combined skin label
at the first underscore into (depth, undertone), falling back to
unknown when the part is not a key of the respective map or when no
underscore is present. -/
def splitFirstUnderscore : List Char → List Char × List Char
  | [] => ([], [])
  | c :: rest =>
    if c = Char.ofNat 95 then ([], rest)
    else
      let p := splitFirstUnderscore rest
      (c :: p.1, p.2)

/-- Lines 162-166 of feature_builder.py continued: the resulting depth
and undertone tokens, falling back to unknown when a part is not a key
of the respective map or when no underscore is present. -/
def skinLabelSplit (label : String) : String × String :=
  if label.data.contains (Char.ofNat 95) then
    let p := splitFirstUnderscore label.data
    let d : String := ⟨p.1⟩
    let u : String := ⟨p.2⟩
    (if (["light", "medium", "deep", "unknown"] : List String).contains d then d
       else "unknown",
     if (["warm", "cool", "neutral", "unknown"] : List String).contains u then u
       else "unknown")
  else ("unknown", "unknown")

/-- The pre-normalization vector of build_feature_vector:
cat_vec (one-hot blocks in order body, face, skin depth, skin
undertone) followed by num_vec scaled by numeric_scale = 0.01,
all in exact rational arithmetic. -/
def fullVecQ (face : FaceDict) (body : BodyDict) (skin : SkinDict) : List ℚ :=
  let bm := body.metrics.getD []
  let body_label := body.body_shape.getD "unknown"
  let fm := face.metrics.getD []
  let face_label := face.face_shape.getD "unknown"
  let sm := skin.metrics.getD []
  let skin_label := skin.skin_tone.getD "unknown"
  let du := skinLabelSplit skin_label
  let cat_vec : List ℚ :=
    BODY_SHAPE_MAP body_label ++ FACE_SHAPE_MAP face_label
      ++ SKIN_DEPTH_MAP du.1 ++ SKIN_UNDERTONE_MAP du.2
  let num_vec : List ℚ :=
    [safe_get bm "s_h", safe_get bm "w_s", safe_get bm "w_h",
     safe_get fm "face_width", safe_get fm "face_length",
     safe_get fm "forehead_width", safe_get fm "jaw_width_est",
     safe_get fm "ratio_len_width", safe_get fm "ratio_jaw_forehead",
     safe_get sm "L_mean", safe_get sm "a_mean", safe_get sm "b_mean",
     safe_get sm "H_mean", safe_get sm "S_mean", safe_get sm "V_mean"]
  cat_vec ++ num_vec.map (fun x => x * 0.01)

/-- The pre-normalization vector as reals. -/
def fullVecR (face : FaceDict) (body : BodyDict) (skin : SkinDict) : List ℝ :=
  (fullVecQ face body skin).map (fun q => (q : ℝ))

/-- np.linalg.norm: the Euclidean norm of a vector. -/
noncomputable def l2norm (v : List ℝ) : ℝ :=
  Real.sqrt ((v.map (fun x => x * x)).sum)

/-- build_feature_vector (the effective second definition,
lines 125-187): assemble cat_vec ++ scaled num_vec, then divide by
(L2 norm + 1e-8). -/
noncomputable def build_feature_vector
    (face : FaceDict) (body : BodyDict) (skin : SkinDict) : List ℝ :=
  let full := fullVecR face body skin
  let norm := l2norm full + 1e-8
  full.map (fun x => x / norm)

/-! ### Similarity matcher (app/services/reference_matcher.py) -/

/-- cosine(a, b) = np.dot(a, b) / (norm(a) * norm(b) + 1e-8). -/
noncomputable def cosine (a b : List ℝ) : ℝ :=
  (List.zipWith (fun x y => x * y) a b).sum / (l2norm a * l2norm b + 1e-8)

open Classical in
/-- One step of a stable descending insertion: the new pair goes in
front of the first element whose score is not larger, so it stays
behind every strictly larger score and in front of equal scores that
occur later in the input. -/
noncomputable def insertDesc (a : String × ℝ) : List (String × ℝ) → List (String × ℝ)
  | [] => [a]
  | b :: l => if a.2 ≥ b.2 then a :: b :: l else b :: insertDesc a l

/-- The stable descending sort modelling list.sort(key=score,
reverse=True): Python list.sort is stable, and the stable descending
permutation of a list is unique, so stable insertion sort is the same
function. -/
noncomputable def sortDesc : List (String × ℝ) → List (String × ℝ)
  | [] => []
  | a :: l => insertDesc a (sortDesc l)

/-- match_user_to_references: score every reference by cosine similarity
to the user vector, sort descending by score (stable), return the first
k pairs.  The dict celeb_vectors is modelled as the list of its
id/vector pairs in iteration (insertion) order. -/
noncomputable def match_user_to_references
    (user_vec : List ℝ) (celeb_vectors : List (String × List ℝ)) (k : ℕ) :
    List (String × ℝ) :=
  let sims := celeb_vectors.map (fun p => (p.1, cosine user_vec p.2))
  (sortDesc sims).take k

/-- The ratio R = face_length / (face_width + 1e-6) of face.py line 112. -/
def faceR (d : FaceDet) : ℚ :=
  d.face_length / (d.face_width + 1e-6)

/-- The ratio J = jaw_width / (forehead_width + 1e-6) of face.py
line 113, with jaw_width = face_width * 0.90. -/
def faceJ (d : FaceDet) : ℚ :=
  d.face_width * 0.90 / (d.forehead_width + 1e-6)

/-- s_h = shoulder_width / (hip_width + 1e-6) of body.py line 137. -/
def s_hOf (w : BodyWidths) : ℚ :=
  w.shoulder_width / (w.hip_width + 1e-6)

/-- w_s = waist_width / (shoulder_width + 1e-6) of body.py line 138. -/
def w_sOf (w : BodyWidths) : ℚ :=
  w.waist_width / (w.shoulder_width + 1e-6)

/-- w_h = waist_width / (hip_width + 1e-6) of body.py line 139. -/
def w_hOf (w : BodyWidths) : ℚ :=
  w.waist_width / (w.hip_width + 1e-6)

/-! ## Theorems -/

/-- C1: for every face-ratio pair (R, J) computed from a detected face,
classify_face_shape returns the label given by the ordered first-match
rules (oblong / heart / short-face round-oval-round / mid-length
square-oval / long square-oval), and the label is always a member of
the fixed face enumeration. -/
theorem c1_face_shape_rules :
    (∀ d : FaceDet,
      (classify_face_shape (some d)).face_shape = faceShapeFromRatios (faceR d) (faceJ d) ∧
      (classify_face_shape (some d)).face_shape
        ∈ (["oval", "round", "square", "heart", "oblong", "unknown"] : List String)) ∧
    ∀ R J : ℚ,
      (R ≥ 1.40 → faceShapeFromRatios R J = "oblong") ∧
      (¬ R ≥ 1.40 ∧ (J < 0.90 ∧ R ≥ 1.20) → faceShapeFromRatios R J = "heart") ∧
      (¬ R ≥ 1.40 ∧ ¬ (J < 0.90 ∧ R ≥ 1.20) ∧ R ≤ 1.14 ∧ J ≥ 1.11 →
        faceShapeFromRatios R J = "round") ∧
      (¬ R ≥ 1.40 ∧ ¬ (J < 0.90 ∧ R ≥ 1.20) ∧ R ≤ 1.14 ∧ ¬ J ≥ 1.11 ∧ J ≥ 1.06 →
        faceShapeFromRatios R J = "oval") ∧
      (¬ R ≥ 1.40 ∧ ¬ (J < 0.90 ∧ R ≥ 1.20) ∧ R ≤ 1.14 ∧ ¬ J ≥ 1.11 ∧ ¬ J ≥ 1.06 →
        faceShapeFromRatios R J = "round") ∧
      (¬ R ≥ 1.40 ∧ ¬ (J < 0.90 ∧ R ≥ 1.20) ∧ ¬ R ≤ 1.14 ∧ R ≤ 1.22 ∧ J ≥ 1.07 →
        faceShapeFromRatios R J = "square") ∧
      (¬ R ≥ 1.40 ∧ ¬ (J < 0.90 ∧ R ≥ 1.20) ∧ ¬ R ≤ 1.14 ∧ R ≤ 1.22 ∧ ¬ J ≥ 1.07 →
        faceShapeFromRatios R J = "oval") ∧
      (¬ R ≥ 1.40 ∧ ¬ (J < 0.90 ∧ R ≥ 1.20) ∧ ¬ R ≤ 1.14 ∧ ¬ R ≤ 1.22 ∧ J ≥ 1.10 →
        faceShapeFromRatios R J = "square") ∧
      (¬ R ≥ 1.40 ∧ ¬ (J < 0.90 ∧ R ≥ 1.20) ∧ ¬ R ≤ 1.14 ∧ ¬ R ≤ 1.22 ∧ ¬ J ≥ 1.10 →
        faceShapeFromRatios R J = "oval") := by
  constructor
  · intro d
    refine ⟨rfl, ?_⟩
    show faceShapeFromRatios (faceR d) (faceJ d) ∈ _
    unfold faceShapeFromRatios
    split_ifs <;> simp
  · intro R J
    unfold faceShapeFromRatios
    split_ifs <;> simp_all

/-- Witness for C1 at the concrete detection (100, 150, 100):
R is about 1.5, so the first rule fires and the label is oblong. -/
theorem c1_face_shape_rules_witness :
    (classify_face_shape (some ⟨100, 150, 100⟩)).face_shape = "oblong" := by
  rw [(c1_face_shape_rules.1 ⟨100, 150, 100⟩).1]
  exact (c1_face_shape_rules.2 (faceR ⟨100, 150, 100⟩) (faceJ ⟨100, 150, 100⟩)).1
    (by norm_num [faceR])

/-- C2: for every ratio triple (s_h, w_s, w_h) computed from a detected
pose, classify_body_shape follows the ordered rules (outlier /
inverted_rectangle / inverted_triangle / triangle / hourglass /
rectangle / balanced); the outlier test is strict, so s_h = 1.9 is
inside the valid range while any s_h above 1.9 gives unknown. -/
theorem c2_body_shape_rules :
    (∀ wd : BodyWidths,
      (classify_body_shape true (some wd)).body_shape
          = (bodyShapeFromRatios (s_hOf wd) (w_sOf wd) (w_hOf wd)).1 ∧
      (classify_body_shape true (some wd)).debug
          = (bodyShapeFromRatios (s_hOf wd) (w_sOf wd) (w_hOf wd)).2) ∧
    ∀ s_h w_s w_h : ℚ,
      (s_h > 1.9 ∨ s_h < 0.6 →
        bodyShapeFromRatios s_h w_s w_h = ("unknown", "ratio_outlier")) ∧
      (¬ (s_h > 1.9 ∨ s_h < 0.6) ∧ w_s ≥ 1.10 ∧ w_h ≥ 1.05 →
        bodyShapeFromRatios s_h w_s w_h = ("inverted_rectangle", "ok")) ∧
      (¬ (s_h > 1.9 ∨ s_h < 0.6) ∧ ¬ (w_s ≥ 1.10 ∧ w_h ≥ 1.05) ∧
          s_h ≥ 1.25 ∧ 1 - w_h < 0.12 →
        bodyShapeFromRatios s_h w_s w_h = ("inverted_triangle", "ok")) ∧
      (¬ (s_h > 1.9 ∨ s_h < 0.6) ∧ ¬ (w_s ≥ 1.10 ∧ w_h ≥ 1.05) ∧
          ¬ (s_h ≥ 1.25 ∧ 1 - w_h < 0.12) ∧ s_h ≤ 0.85 ∧ 1 - w_h < 0.12 →
        bodyShapeFromRatios s_h w_s w_h = ("triangle", "ok")) ∧
      (¬ (s_h > 1.9 ∨ s_h < 0.6) ∧ ¬ (w_s ≥ 1.10 ∧ w_h ≥ 1.05) ∧
          ¬ (s_h ≥ 1.25 ∧ 1 - w_h < 0.12) ∧ ¬ (s_h ≤ 0.85 ∧ 1 - w_h < 0.12) ∧
          1 - w_s ≥ 0.18 ∧ 1 - w_h ≥ 0.12 →
        bodyShapeFromRatios s_h w_s w_h = ("hourglass", "ok")) ∧
      (¬ (s_h > 1.9 ∨ s_h < 0.6) ∧ ¬ (w_s ≥ 1.10 ∧ w_h ≥ 1.05) ∧
          ¬ (s_h ≥ 1.25 ∧ 1 - w_h < 0.12) ∧ ¬ (s_h ≤ 0.85 ∧ 1 - w_h < 0.12) ∧
          ¬ (1 - w_s ≥ 0.18 ∧ 1 - w_h ≥ 0.12) ∧ |1 - w_s| ≤ 0.12 ∧ |1 - w_h| ≤ 0.12 →
        bodyShapeFromRatios s_h w_s w_h = ("rectangle", "ok")) ∧
      (¬ (s_h > 1.9 ∨ s_h < 0.6) ∧ ¬ (w_s ≥ 1.10 ∧ w_h ≥ 1.05) ∧
          ¬ (s_h ≥ 1.25 ∧ 1 - w_h < 0.12) ∧ ¬ (s_h ≤ 0.85 ∧ 1 - w_h < 0.12) ∧
          ¬ (1 - w_s ≥ 0.18 ∧ 1 - w_h ≥ 0.12) ∧ ¬ (|1 - w_s| ≤ 0.12 ∧ |1 - w_h| ≤ 0.12) →
        bodyShapeFromRatios s_h w_s w_h = ("balanced", "ok")) ∧
      (s_h = 1.9 → (bodyShapeFromRatios s_h w_s w_h).1 ≠ "unknown") ∧
      (s_h > 1.9 → bodyShapeFromRatios s_h w_s w_h = ("unknown", "ratio_outlier")) := by
  constructor
  · intro wd
    exact ⟨rfl, rfl⟩
  · intro s_h w_s w_h
    refine ⟨?_, ?_, ?_, ?_, ?_, ?_, ?_, ?_, ?_⟩
    · intro hc; simp only [bodyShapeFromRatios]; rw [if_pos hc]
    · intro hc; simp only [bodyShapeFromRatios]; split_ifs <;> simp_all
    · intro hc; simp only [bodyShapeFromRatios]; split_ifs <;> simp_all
    · intro hc; simp only [bodyShapeFromRatios]; split_ifs <;> simp_all
    · intro hc; simp only [bodyShapeFromRatios]; split_ifs <;> simp_all
    · intro hc; simp only [bodyShapeFromRatios]; split_ifs <;> simp_all
    · intro hc; simp only [bodyShapeFromRatios]
      split_ifs <;> simp_all
    · intro he; subst he; simp only [bodyShapeFromRatios]
      rw [if_neg (by norm_num)]; split_ifs <;> simp
    · intro hgt; simp only [bodyShapeFromRatios]; rw [if_pos (Or.inl hgt)]

/-- Witness for C2 at the ratio triple (2, 1, 1): s_h = 2 exceeds 1.9,
so the outlier rule fires. -/
theorem c2_body_shape_rules_witness :
    bodyShapeFromRatios 2 1 1 = ("unknown", "ratio_outlier") :=
  (c2_body_shape_rules.2 2 1 1).1 (Or.inl (by norm_num))

/-- C5: for every mean Lab triple of a non-empty face ROI,
classify_skin_tone concatenates the depth label (thresholds 180 and 130
on L_mean) and the undertone label (score (b-136) - 0.6*(a-138) against
the symmetric threshold 3) with an underscore. -/
theorem c5_skin_tone_rules (roi : SkinROI) (h : roi.area ≠ 0) :
    (classify_skin_tone (some roi)).skin_tone
        = skinDepth roi.L_mean ++ "_" ++ skinUndertone roi.a_mean roi.b_mean ∧
    (roi.L_mean ≥ 180 → skinDepth roi.L_mean = "light") ∧
    (130 ≤ roi.L_mean ∧ roi.L_mean < 180 → skinDepth roi.L_mean = "medium") ∧
    (roi.L_mean < 130 → skinDepth roi.L_mean = "deep") ∧
    (roi.b_mean - 136 - 0.6 * (roi.a_mean - 138) > 3 →
      skinUndertone roi.a_mean roi.b_mean = "warm") ∧
    (roi.b_mean - 136 - 0.6 * (roi.a_mean - 138) < -3 →
      skinUndertone roi.a_mean roi.b_mean = "cool") ∧
    (-3 ≤ roi.b_mean - 136 - 0.6 * (roi.a_mean - 138) ∧
        roi.b_mean - 136 - 0.6 * (roi.a_mean - 138) ≤ 3 →
      skinUndertone roi.a_mean roi.b_mean = "neutral") := by
  refine ⟨by simp [classify_skin_tone, h], ?_, ?_, ?_, ?_, ?_, ?_⟩
  · intro hL; simp only [skinDepth]; rw [if_pos hL]
  · rintro ⟨h1, h2⟩; simp only [skinDepth]
    rw [if_neg (by linarith), if_pos (by linarith)]
  · intro h1; simp only [skinDepth]
    rw [if_neg (by linarith), if_neg (by linarith)]
  · intro hs; simp only [skinUndertone]; rw [if_pos (by linarith)]
  · intro hs; simp only [skinUndertone]
    rw [if_neg (by linarith), if_pos (by linarith)]
  · rintro ⟨h1, h2⟩; simp only [skinUndertone]
    rw [if_neg (by linarith), if_neg (by linarith)]

/-- Witness for C5 at the ROI (area 1, L = 200, a = 138, b = 140):
depth light, score 4 gives warm, so the label is light_warm. -/
theorem c5_skin_tone_rules_witness :
    (classify_skin_tone (some ⟨1, 200, 138, 140, 0, 0, 0⟩)).skin_tone = "light_warm" := by
  have h := c5_skin_tone_rules ⟨1, 200, 138, 140, 0, 0, 0⟩ (by norm_num)
  rw [h.1, h.2.1 (by norm_num), h.2.2.2.2.1 (by norm_num)]
  rfl

/-- C9: a missing upstream detection (no face mesh, no pose landmarks,
no segmentation mask) and an empty cropped ROI each produce the label
unknown with null metrics and the debug tag naming the cause; the
embedded classifiers are total functions, so no exception is raised. -/
theorem c9_missing_detection_unknown :
    classify_face_shape none = ⟨"unknown", none, "no_face"⟩ ∧
    (∀ seg, classify_body_shape false seg = ⟨"unknown", none, "no_pose"⟩) ∧
    classify_body_shape true none = ⟨"unknown", none, "no_segmentation"⟩ ∧
    classify_skin_tone none = ⟨"unknown", none, "no_face"⟩ ∧
    ∀ roi : SkinROI, roi.area = 0 →
      classify_skin_tone (some roi) = ⟨"unknown", none, "roi_empty"⟩ := by
  refine ⟨rfl, fun seg => rfl, rfl, rfl, fun roi h => by simp [classify_skin_tone, h]⟩

/-- Witness for C9 at a concrete zero-area ROI. -/
theorem c9_missing_detection_unknown_witness :
    classify_skin_tone (some ⟨0, 0, 0, 0, 0, 0, 0⟩) = ⟨"unknown", none, "roi_empty"⟩ :=
  c9_missing_detection_unknown.2.2.2.2 ⟨0, 0, 0, 0, 0, 0, 0⟩ rfl

/-- C6: the style encoder maps (minimal, summer, white, top, oversized)
to [0.9, 0.1, 0.8, 0.8, 0.8, 0.9] and (formal, winter, black, outer,
slim) to [0.2, -0.8, 0, -0.2, -0.8, -0.9]; black is in no soft, vivid
or shared color family, so v2 = 0. -/
theorem c6_style_encoder_examples :
    OutfitEmbedding.style_to_vec (some "minimal") (some "summer") (some "white")
        (some "top") (some "oversized") = [0.9, 0.1, 0.8, 0.8, 0.8, 0.9] ∧
    OutfitEmbedding.style_to_vec (some "formal") (some "winter") (some "black")
        (some "outer") (some "slim") = [0.2, -0.8, 0, -0.2, -0.8, -0.9] :=
  ⟨rfl, rfl⟩

theorem v0_axis_bounds (s : String) :
    -1 ≤ OutfitEmbedding.v0_axis s ∧ OutfitEmbedding.v0_axis s ≤ 1 := by
  unfold OutfitEmbedding.v0_axis; split_ifs <;> norm_num

theorem v1_axis_bounds (s : String) :
    -1 ≤ OutfitEmbedding.v1_axis s ∧ OutfitEmbedding.v1_axis s ≤ 1 := by
  unfold OutfitEmbedding.v1_axis; split_ifs <;> norm_num

theorem v2_axis_bounds (s : String) :
    -1 ≤ OutfitEmbedding.v2_axis s ∧ OutfitEmbedding.v2_axis s ≤ 1 := by
  unfold OutfitEmbedding.v2_axis; split_ifs <;> norm_num

theorem v3_axis_bounds (s : String) :
    -1 ≤ OutfitEmbedding.v3_axis s ∧ OutfitEmbedding.v3_axis s ≤ 1 := by
  unfold OutfitEmbedding.v3_axis; split_ifs <;> norm_num

theorem v4_axis_bounds (s : String) :
    -1 ≤ OutfitEmbedding.v4_axis s ∧ OutfitEmbedding.v4_axis s ≤ 1 := by
  unfold OutfitEmbedding.v4_axis; split_ifs <;> norm_num

theorem v5_axis_bounds (s : String) :
    -1 ≤ OutfitEmbedding.v5_axis s ∧ OutfitEmbedding.v5_axis s ≤ 1 := by
  unfold OutfitEmbedding.v5_axis; split_ifs <;> norm_num

/-- C7: the style encoder is a total function of five optional strings
(null becomes the empty string, inputs are trimmed and lowercased); it
always returns 6 components, every component lies in [-1, 1], and a
token not recognized by an axis rule set contributes exactly 0 on that
axis. -/
theorem c7_style_encoder_total (style season color category fit : Option String) :
    (OutfitEmbedding.style_to_vec style season color category fit).length = 6 ∧
    (∀ x ∈ OutfitEmbedding.style_to_vec style season color category fit,
      -1 ≤ x ∧ x ≤ 1) ∧
    (OutfitEmbedding.normalizeTok style
        ∉ (["minimal", "street", "casual", "sporty", "retro", "romantic", "formal"] :
            List String) →
      OutfitEmbedding.v0_axis (OutfitEmbedding.normalizeTok style) = 0 ∧
      OutfitEmbedding.v1_axis (OutfitEmbedding.normalizeTok style) = 0) ∧
    (OutfitEmbedding.normalizeTok color ∉ OutfitEmbedding.softColors →
      OutfitEmbedding.normalizeTok color ∉ OutfitEmbedding.vividColors →
      (∀ c ∈ OutfitEmbedding.softColors,
        OutfitEmbedding.sameColorFamily (OutfitEmbedding.normalizeTok color) c = false) →
      (∀ c ∈ OutfitEmbedding.vividColors,
        OutfitEmbedding.sameColorFamily (OutfitEmbedding.normalizeTok color) c = false) →
      OutfitEmbedding.v2_axis (OutfitEmbedding.normalizeTok color) = 0) ∧
    (OutfitEmbedding.normalizeTok category
        ∉ (["top", "bottom", "outer", "dress", "shoes", "bag", "accessory"] :
            List String) →
      OutfitEmbedding.v3_axis (OutfitEmbedding.normalizeTok category) = 0) ∧
    (OutfitEmbedding.normalizeTok fit
        ∉ (["slim", "regular", "relaxed", "oversized"] : List String) →
      OutfitEmbedding.v4_axis (OutfitEmbedding.normalizeTok fit) = 0) ∧
    (OutfitEmbedding.normalizeTok season
        ∉ (["spring", "summer", "fall", "autumn", "winter", "all"] : List String) →
      OutfitEmbedding.v5_axis (OutfitEmbedding.normalizeTok season) = 0) := by
  refine ⟨rfl, ?_, ?_, ?_, ?_, ?_, ?_⟩
  · intro x hx
    simp only [OutfitEmbedding.style_to_vec, List.mem_cons, List.not_mem_nil,
      or_false] at hx
    rcases hx with rfl | rfl | rfl | rfl | rfl | rfl
    · exact v0_axis_bounds _
    · exact v1_axis_bounds _
    · exact v2_axis_bounds _
    · exact v3_axis_bounds _
    · exact v4_axis_bounds _
    · exact v5_axis_bounds _
  · intro h
    constructor
    · unfold OutfitEmbedding.v0_axis; split_ifs <;> simp_all
    · unfold OutfitEmbedding.v1_axis; split_ifs <;> simp_all
  · intro h1 h2 h3 h4
    unfold OutfitEmbedding.v2_axis
    split_ifs with hc1 hc2 hc3 hc4
    · simp_all
    · simp_all
    · rcases List.any_eq_true.mp hc3 with ⟨c, hcm, hcf⟩
      rw [h3 c hcm] at hcf; cases hcf
    · rcases List.any_eq_true.mp hc4 with ⟨c, hcm, hcf⟩
      rw [h4 c hcm] at hcf; cases hcf
    · rfl
  · intro h; unfold OutfitEmbedding.v3_axis; split_ifs <;> simp_all
  · intro h; unfold OutfitEmbedding.v4_axis; split_ifs <;> simp_all
  · intro h; unfold OutfitEmbedding.v5_axis; split_ifs <;> simp_all

/-- Witness for C7 at an unrecognized token on every axis. -/
theorem c7_style_encoder_total_witness :
    (OutfitEmbedding.style_to_vec (some "junk") (some "junk") (some "junk")
        (some "junk") (some "junk")).length = 6 ∧
    OutfitEmbedding.v3_axis (OutfitEmbedding.normalizeTok (some "junk")) = 0 := by
  have h := c7_style_encoder_total (some "junk") (some "junk") (some "junk")
    (some "junk") (some "junk")
  exact ⟨h.1, h.2.2.2.2.1 (by decide)⟩

/-- C10: the two copies of the style encoder, in clothes_analyzer.py
and outfit_embedding.py, are extensionally equal. -/
theorem c10_style_encoders_equal (style season color category fit : Option String) :
    ClothesAnalyzer.style_to_vec style season color category fit
      = OutfitEmbedding.style_to_vec style season color category fit :=
  rfl

theorem BODY_SHAPE_MAP_length (lbl : String) : (BODY_SHAPE_MAP lbl).length = 5 := by
  unfold BODY_SHAPE_MAP; split_ifs <;> rfl

theorem FACE_SHAPE_MAP_length (lbl : String) : (FACE_SHAPE_MAP lbl).length = 5 := by
  unfold FACE_SHAPE_MAP; split_ifs <;> rfl

theorem SKIN_DEPTH_MAP_length (lbl : String) : (SKIN_DEPTH_MAP lbl).length = 3 := by
  unfold SKIN_DEPTH_MAP; split_ifs <;> rfl

theorem SKIN_UNDERTONE_MAP_length (lbl : String) : (SKIN_UNDERTONE_MAP lbl).length = 3 := by
  unfold SKIN_UNDERTONE_MAP; split_ifs <;> rfl

/-- C3: the feature vector is 31-dimensional — one-hot blocks in fixed
order body(5), face(5), skin depth(3), skin undertone(3), then the 15
continuous metrics (3 body, 6 face, 6 skin) each scaled by 0.01;
unknown or unrecognized labels give all-zero blocks, missing or
non-numeric metrics give 0, and the whole vector is divided by its L2
norm plus 1e-8. -/
theorem c3_feature_vector_composition :
    (∀ f b s, (fullVecQ f b s).length = 31) ∧
    (∀ f b s, fullVecQ f b s =
      BODY_SHAPE_MAP (b.body_shape.getD "unknown")
      ++ FACE_SHAPE_MAP (f.face_shape.getD "unknown")
      ++ SKIN_DEPTH_MAP (skinLabelSplit (s.skin_tone.getD "unknown")).1
      ++ SKIN_UNDERTONE_MAP (skinLabelSplit (s.skin_tone.getD "unknown")).2
      ++ ([safe_get (b.metrics.getD []) "s_h", safe_get (b.metrics.getD []) "w_s",
           safe_get (b.metrics.getD []) "w_h",
           safe_get (f.metrics.getD []) "face_width",
           safe_get (f.metrics.getD []) "face_length",
           safe_get (f.metrics.getD []) "forehead_width",
           safe_get (f.metrics.getD []) "jaw_width_est",
           safe_get (f.metrics.getD []) "ratio_len_width",
           safe_get (f.metrics.getD []) "ratio_jaw_forehead",
           safe_get (s.metrics.getD []) "L_mean", safe_get (s.metrics.getD []) "a_mean",
           safe_get (s.metrics.getD []) "b_mean", safe_get (s.metrics.getD []) "H_mean",
           safe_get (s.metrics.getD []) "S_mean",
           safe_get (s.metrics.getD []) "V_mean"].map (fun x => x * 0.01))) ∧
    (∀ lbl, lbl ∉ (["inverted_triangle", "triangle", "hourglass", "rectangle",
        "balanced"] : List String) → BODY_SHAPE_MAP lbl = [0, 0, 0, 0, 0]) ∧
    (∀ lbl, lbl ∉ (["oval", "round", "square", "heart", "oblong"] : List String) →
      FACE_SHAPE_MAP lbl = [0, 0, 0, 0, 0]) ∧
    (∀ lbl, lbl ∉ (["light", "medium", "deep"] : List String) →
      SKIN_DEPTH_MAP lbl = [0, 0, 0]) ∧
    (∀ lbl, lbl ∉ (["warm", "cool", "neutral"] : List String) →
      SKIN_UNDERTONE_MAP lbl = [0, 0, 0]) ∧
    (∀ key, safe_get [] key = 0) ∧
    (∀ m key, m.lookup key = none → safe_get m key = 0) ∧
    (∀ m key, m.lookup key = some PyVal.other → safe_get m key = 0) ∧
    (∀ f b s, build_feature_vector f b s =
      (fullVecR f b s).map (fun x => x / (l2norm (fullVecR f b s) + 1e-8))) := by
  refine ⟨?_, ?_, ?_, ?_, ?_, ?_, ?_, ?_, ?_, ?_⟩
  · intro f b s
    simp [fullVecQ, BODY_SHAPE_MAP_length, FACE_SHAPE_MAP_length,
      SKIN_DEPTH_MAP_length, SKIN_UNDERTONE_MAP_length]
  · intro f b s
    simp [fullVecQ, List.append_assoc]
  · intro lbl h; unfold BODY_SHAPE_MAP; split_ifs <;> simp_all
  · intro lbl h; unfold FACE_SHAPE_MAP; split_ifs <;> simp_all
  · intro lbl h; unfold SKIN_DEPTH_MAP; split_ifs <;> simp_all
  · intro lbl h; unfold SKIN_UNDERTONE_MAP; split_ifs <;> simp_all
  · intro key; rfl
  · intro m key h; simp [safe_get, h]
  · intro m key h; simp [safe_get, h]
  · intro f b s; rfl

/-- Witness for C3: a 31-dimensional vector on a concrete input, and an
all-zero block for a concrete unrecognized body label. -/
theorem c3_feature_vector_composition_witness :
    (fullVecQ ⟨some "oval", none⟩ ⟨some "junk", none⟩ ⟨some "unknown", none⟩).length = 31 ∧
    BODY_SHAPE_MAP "junk" = [0, 0, 0, 0, 0] :=
  ⟨c3_feature_vector_composition.1 _ _ _,
   c3_feature_vector_composition.2.2.1 "junk" (by decide)⟩

theorem sum_map_sq_nonneg (v : List ℝ) : 0 ≤ (v.map (fun x => x * x)).sum := by
  induction v with
  | nil => simp
  | cons a l ih =>
    simp only [List.map_cons, List.sum_cons]
    nlinarith [mul_self_nonneg a]

theorem l2norm_nonneg (v : List ℝ) : 0 ≤ l2norm v :=
  Real.sqrt_nonneg _

theorem sum_map_div_sq (v : List ℝ) (c : ℝ) :
    ((v.map (fun x => x / c)).map (fun x => x * x)).sum
      = (v.map (fun x => x * x)).sum / (c * c) := by
  induction v with
  | nil => simp
  | cons a l ih =>
    simp only [List.map_cons, List.sum_cons, ih, div_mul_div_comm, add_div]

theorem l2norm_map_div (v : List ℝ) (c : ℝ) (hc : 0 < c) :
    l2norm (v.map (fun x => x / c)) = l2norm v / c := by
  unfold l2norm
  rw [sum_map_div_sq, Real.sqrt_div (sum_map_sq_nonneg v) (c * c),
    Real.sqrt_mul_self hc.le]

/-- C4 counterexample: with all labels unknown and a single metric
s_h = 0.5, the pre-normalization vector is nonzero (it holds the scaled
component 1/200) but the norm of the returned vector misses 1 by
1/500001, which exceeds 1e-6.  This refutes the claim that one nonzero
component suffices for the norm to be 1 within 1e-6. -/
theorem c4_norm_counterexample :
    ((1 : ℚ)/200 ∈ fullVecQ ⟨some "unknown", none⟩
        ⟨some "unknown", some [("s_h", PyVal.num (1/2))]⟩ ⟨some "unknown", none⟩ ∧
      (1 : ℚ)/200 ≠ 0) ∧
    1e-6 < |l2norm (build_feature_vector ⟨some "unknown", none⟩
        ⟨some "unknown", some [("s_h", PyVal.num (1/2))]⟩ ⟨some "unknown", none⟩) - 1| := by
  have hq : fullVecQ ⟨some "unknown", none⟩
      ⟨some "unknown", some [("s_h", PyVal.num (1/2))]⟩ ⟨some "unknown", none⟩
      = [0, 0, 0, 0, 0, 0, 0, 0, 0, 0, 0, 0, 0, 0, 0, 0,
         1/200, 0, 0, 0, 0, 0, 0, 0, 0, 0, 0, 0, 0, 0, 0] := by
    have hsplit : skinLabelSplit "unknown" = ("unknown", "unknown") := rfl
    have hget : safe_get [("s_h", PyVal.num (1/2))] "s_h" = 1/2 := rfl
    have hget2 : safe_get [("s_h", PyVal.num (1/2))] "w_s" = 0 := rfl
    have hget3 : safe_get [("s_h", PyVal.num (1/2))] "w_h" = 0 := rfl
    have hB : BODY_SHAPE_MAP "unknown" = [0, 0, 0, 0, 0] := rfl
    have hF : FACE_SHAPE_MAP "unknown" = [0, 0, 0, 0, 0] := rfl
    have hD : SKIN_DEPTH_MAP "unknown" = [0, 0, 0] := rfl
    have hU : SKIN_UNDERTONE_MAP "unknown" = [0, 0, 0] := rfl
    simp only [fullVecQ, Option.getD_none, Option.getD_some, hsplit,
      hget, hget2, hget3, hB, hF, hD, hU]
    norm_num [safe_get]
  have hr : l2norm (fullVecR ⟨some "unknown", none⟩
      ⟨some "unknown", some [("s_h", PyVal.num (1/2))]⟩ ⟨some "unknown", none⟩) = 1/200 := by
    unfold fullVecR
    rw [hq]
    unfold l2norm
    rw [show ((([(0:ℚ), 0, 0, 0, 0, 0, 0, 0, 0, 0, 0, 0, 0, 0, 0, 0,
        1/200, 0, 0, 0, 0, 0, 0, 0, 0, 0, 0, 0, 0, 0, 0].map
          (fun q => (q : ℝ))).map (fun x => x * x)).sum) = (1/200) * (1/200) by norm_num,
      Real.sqrt_mul_self (by norm_num)]
  constructor
  · refine ⟨?_, by norm_num⟩
    rw [hq]
    norm_num
  · have hc : (0 : ℝ) < l2norm (fullVecR ⟨some "unknown", none⟩
        ⟨some "unknown", some [("s_h", PyVal.num (1/2))]⟩ ⟨some "unknown", none⟩) + 1e-8 := by
      rw [hr]; norm_num
    have hb : l2norm (build_feature_vector ⟨some "unknown", none⟩
        ⟨some "unknown", some [("s_h", PyVal.num (1/2))]⟩ ⟨some "unknown", none⟩)
        = (1/200 : ℝ) / (1/200 + 1e-8) := by
      simp only [build_feature_vector]
      rw [l2norm_map_div _ _ hc, hr]
    rw [hb, abs_of_nonpos (by norm_num)]
    norm_num

/-- C4 (amended): whenever the pre-normalization vector has Euclidean
norm at least 0.01, the returned vector has Euclidean norm equal to 1
within 1e-6.  (With only the nonzero-component premise of the original
claim the bound fails; see the counterexample.) -/
theorem c4_norm_amended (f : FaceDict) (b : BodyDict) (s : SkinDict)
    (h : 1/100 ≤ l2norm (fullVecR f b s)) :
    |l2norm (build_feature_vector f b s) - 1| ≤ 1e-6 := by
  have hn0 : (0 : ℝ) ≤ l2norm (fullVecR f b s) := l2norm_nonneg _
  have heps : (0 : ℝ) < 1e-8 := by norm_num
  have hc : (0 : ℝ) < l2norm (fullVecR f b s) + 1e-8 := by linarith
  have hkey : l2norm (build_feature_vector f b s)
      = l2norm (fullVecR f b s) / (l2norm (fullVecR f b s) + 1e-8) := by
    simp only [build_feature_vector]
    rw [l2norm_map_div _ _ hc]
  rw [hkey]
  have h1 : l2norm (fullVecR f b s) / (l2norm (fullVecR f b s) + 1e-8) ≤ 1 := by
    rw [div_le_one hc]; linarith
  rw [abs_of_nonpos (by linarith)]
  have h2 : 1 - l2norm (fullVecR f b s) / (l2norm (fullVecR f b s) + 1e-8)
      = 1e-8 / (l2norm (fullVecR f b s) + 1e-8) := by
    field_simp
  have h3 : (1e-8 : ℝ) / (l2norm (fullVecR f b s) + 1e-8) ≤ 1e-6 := by
    rw [div_le_iff₀ hc]
    nlinarith
  linarith [h2, h3]

/-- Witness for the amended C4: a recognized body label alone gives a
pre-normalization norm of exactly 1, and the normalized norm is within
1e-6 of 1. -/
theorem c4_norm_amended_witness :
    1/100 ≤ l2norm (fullVecR ⟨some "unknown", none⟩ ⟨some "hourglass", none⟩
        ⟨some "unknown", none⟩) ∧
    |l2norm (build_feature_vector ⟨some "unknown", none⟩ ⟨some "hourglass", none⟩
        ⟨some "unknown", none⟩) - 1| ≤ 1e-6 := by
  have hq : fullVecQ ⟨some "unknown", none⟩ ⟨some "hourglass", none⟩ ⟨some "unknown", none⟩
      = [0, 0, 1, 0, 0, 0, 0, 0, 0, 0, 0, 0, 0, 0, 0, 0,
         0, 0, 0, 0, 0, 0, 0, 0, 0, 0, 0, 0, 0, 0, 0] := by
    have hsplit : skinLabelSplit "unknown" = ("unknown", "unknown") := rfl
    have hB : BODY_SHAPE_MAP "hourglass" = [0, 0, 1, 0, 0] := rfl
    have hF : FACE_SHAPE_MAP "unknown" = [0, 0, 0, 0, 0] := rfl
    have hD : SKIN_DEPTH_MAP "unknown" = [0, 0, 0] := rfl
    have hU : SKIN_UNDERTONE_MAP "unknown" = [0, 0, 0] := rfl
    simp only [fullVecQ, Option.getD_none, Option.getD_some, hsplit, hB, hF, hD, hU]
    norm_num [safe_get]
  have hr : l2norm (fullVecR ⟨some "unknown", none⟩ ⟨some "hourglass", none⟩
      ⟨some "unknown", none⟩) = 1 := by
    unfold fullVecR
    rw [hq]
    unfold l2norm
    rw [show ((([(0:ℚ), 0, 1, 0, 0, 0, 0, 0, 0, 0, 0, 0, 0, 0, 0, 0,
        0, 0, 0, 0, 0, 0, 0, 0, 0, 0, 0, 0, 0, 0, 0].map
          (fun q => (q : ℝ))).map (fun x => x * x)).sum) = 1 by norm_num, Real.sqrt_one]
  exact ⟨by rw [hr]; norm_num, c4_norm_amended _ _ _ (by rw [hr]; norm_num)⟩

theorem insertDesc_perm (a : String × ℝ) (l : List (String × ℝ)) :
    List.Perm (insertDesc a l) (a :: l) := by
  induction l with
  | nil => exact List.Perm.refl _
  | cons b t ih =>
    simp only [insertDesc]
    split_ifs with h
    · exact List.Perm.refl _
    · exact (List.Perm.cons b ih).trans (List.Perm.swap a b t)

theorem sortDesc_perm (l : List (String × ℝ)) : List.Perm (sortDesc l) l := by
  induction l with
  | nil => exact List.Perm.refl _
  | cons a t ih =>
    exact (insertDesc_perm a (sortDesc t)).trans (List.Perm.cons a ih)

theorem insertDesc_pairwise (a : String × ℝ) (l : List (String × ℝ))
    (hl : l.Pairwise (fun x y => y.2 ≤ x.2)) :
    (insertDesc a l).Pairwise (fun x y => y.2 ≤ x.2) := by
  induction l with
  | nil => simp [insertDesc]
  | cons b t ih =>
    rw [List.pairwise_cons] at hl
    simp only [insertDesc]
    split_ifs with h
    · rw [List.pairwise_cons]
      refine ⟨?_, by rw [List.pairwise_cons]; exact hl⟩
      intro x hx
      rcases List.mem_cons.mp hx with rfl | hx2
      · exact h
      · exact le_trans (hl.1 x hx2) h
    · rw [List.pairwise_cons]
      refine ⟨?_, ih hl.2⟩
      intro x hx
      rcases List.mem_cons.mp ((insertDesc_perm a t).mem_iff.mp hx) with rfl | hx3
      · exact le_of_not_le h
      · exact hl.1 x hx3

theorem sortDesc_pairwise (l : List (String × ℝ)) :
    (sortDesc l).Pairwise (fun x y => y.2 ≤ x.2) := by
  induction l with
  | nil => simp [sortDesc]
  | cons a t ih => exact insertDesc_pairwise a (sortDesc t) ih

theorem sublist_insertDesc (a : String × ℝ) (l : List (String × ℝ)) :
    l.Sublist (insertDesc a l) := by
  induction l with
  | nil => simp [insertDesc]
  | cons b t ih =>
    simp only [insertDesc]
    split_ifs
    · exact (List.Sublist.refl _).cons _
    · exact ih.cons₂ b

theorem pair_sublist_insertDesc (a b : String × ℝ) (l : List (String × ℝ))
    (hmem : b ∈ l) (hle : b.2 ≤ a.2) :
    List.Sublist [a, b] (insertDesc a l) := by
  induction l with
  | nil => cases hmem
  | cons c t ih =>
    simp only [insertDesc]
    split_ifs with h
    · exact List.Sublist.cons₂ a (List.singleton_sublist.mpr hmem)
    · rcases List.mem_cons.mp hmem with rfl | hb
      · exact absurd hle h
      · exact (ih hb).cons c

theorem sortDesc_stable_pair (l : List (String × ℝ)) (a b : String × ℝ)
    (hab : a.2 = b.2) (h : List.Sublist [a, b] l) :
    List.Sublist [a, b] (sortDesc l) := by
  induction l with
  | nil => simp at h
  | cons c t ih =>
    cases h with
    | cons _ h2 => exact (ih h2).trans (sublist_insertDesc c (sortDesc t))
    | cons₂ _ h2 =>
      exact pair_sublist_insertDesc a b (sortDesc t)
        ((sortDesc_perm t).mem_iff.mpr (List.singleton_sublist.mp h2))
        (le_of_eq hab.symm)

/-- C8: match_user_to_references scores every reference by
cosine(a,b) = (a.b)/(norm a * norm b + 1e-8), sorts the (id, score)
pairs in descending score order with a stable sort (equal scores keep
the iteration order of the mapping), and returns exactly the first k
pairs (all of them when fewer than k references exist). -/
theorem c8_matcher_top_k (q : List ℝ) (refs : List (String × List ℝ)) (k : ℕ) :
    match_user_to_references q refs k
      = (sortDesc (refs.map (fun p => (p.1, cosine q p.2)))).take k ∧
    List.Perm (sortDesc (refs.map (fun p => (p.1, cosine q p.2))))
      (refs.map (fun p => (p.1, cosine q p.2))) ∧
    List.Pairwise (fun x y : String × ℝ => y.2 ≤ x.2)
      (sortDesc (refs.map (fun p => (p.1, cosine q p.2)))) ∧
    (∀ a b : String × ℝ, a.2 = b.2 →
      List.Sublist [a, b] (refs.map (fun p => (p.1, cosine q p.2))) →
      List.Sublist [a, b] (sortDesc (refs.map (fun p => (p.1, cosine q p.2))))) ∧
    (match_user_to_references q refs k).length = min k refs.length := by
  refine ⟨rfl, sortDesc_perm _, sortDesc_pairwise _,
    fun a b hab h => sortDesc_stable_pair _ a b hab h, ?_⟩
  show ((sortDesc (refs.map (fun p => (p.1, cosine q p.2)))).take k).length = _
  rw [List.length_take, (sortDesc_perm _).length_eq, List.length_map]

/-- Witness for C8: two references with equal scores keep their
iteration order through the sort. -/
theorem c8_matcher_top_k_witness :
    List.Sublist [(("a" : String), cosine [1] [0]), (("b" : String), cosine [1] [0])]
      (sortDesc ([(("a" : String), ([0] : List ℝ)), ("b", [0])].map
        (fun p => (p.1, cosine [1] p.2)))) :=
  (c8_matcher_top_k [1] [("a", [0]), ("b", [0])] 5).2.2.2.1
    ("a", cosine [1] [0]) ("b", cosine [1] [0]) rfl (List.Sublist.refl _)

end FitMe
